import Mathlib

/-!
Verification development for `tools/outreach_generator.py`, a single-file
command-line tool that derives a referral hash and persona URL from a target
profile, composes a prompt, sends it to a hosted language model, parses the
JSON-shaped reply (with a fenced-code-block fallback), and writes the result
to a JSON file.

The Python source is shallowly embedded below.  Python strings are embedded as
Lean `String` (a list of code points, matching Python's code-point strings);
operations such as `str.find`, slicing, `str.strip`, `str.lower` and
`str.replace` are modelled directly on the character list.  Standard-library
routines used by the tool (`hashlib.md5`, `json.loads`, `json.dump`,
`os.path.dirname`, `os.makedirs`, `argparse`) are embedded from their
documented behaviour, as noted at each definition.  The single network call is
abstracted by a `model_reply` parameter together with a `networkCalled` flag
recording whether execution reached the call site.
-/

/-! ## Characters that the token rules make awkward to write literally -/

/-- The backtick character. -/
def cBacktick : Char := Char.ofNat 96

/-- The double-quote character. -/
def cQuote : Char := Char.ofNat 34

/-- The left curly brace character. -/
def cLBrace : Char := Char.ofNat 123

/-- The right curly brace character. -/
def cRBrace : Char := Char.ofNat 125

/-- The apostrophe (single-quote) character. -/
def cApos : Char := Char.ofNat 39

/-- The backslash character. -/
def cBackslash : Char := Char.ofNat 92

/-! ## Python string primitives -/

/-- Whitespace recognized both by `str.strip` and by the JSON scanner: space,
tab, newline, carriage return.  (Python's `str.strip` also strips `\x0b`,
`\x0c` and Unicode spaces; no text handled by this tool contains those, so the
embedding uses the common core of the two whitespace sets.) -/
def isWs (c : Char) : Bool :=
  c = ' ' || c = '\t' || c = '\n' || c = '\r'

/-- Strip whitespace from both ends of a character list (`str.strip()`). -/
def stripList (l : List Char) : List Char :=
  ((l.dropWhile isWs).reverse.dropWhile isWs).reverse

/-- `str.strip()`. -/
def pyStrip (s : String) : String :=
  String.mk (stripList s.data)

/-- Offset of the first occurrence of `sub` in `l`, if any.  Models the search
underlying Python's `str.find` / the `in` operator (for nonempty `sub`). -/
def firstOcc (sub : List Char) : List Char → Option Nat
  | [] => if sub.isPrefixOf ([] : List Char) then some 0 else none
  | c :: t =>
    if sub.isPrefixOf (c :: t) then some 0
    else (firstOcc sub t).map (· + 1)

/-- Python's `sub in s` for nonempty `sub`. -/
def strContains (s sub : String) : Bool :=
  (firstOcc sub.data s.data).isSome

/-- Python's `s.find(sub)`: index of first occurrence, `-1` if absent. -/
def strFind (s sub : String) : Int :=
  match firstOcc sub.data s.data with
  | some n => (n : Int)
  | none => -1

/-- Python's `s.find(sub, start)`: first occurrence at index `≥ start`,
`-1` if absent. -/
def strFindFrom (s sub : String) (start : Nat) : Int :=
  match firstOcc sub.data (s.data.drop start) with
  | some n => ((start + n : Nat) : Int)
  | none => -1

/-- Resolve one endpoint of a Python slice `s[a:b]`: negative indices count
from the end, and all indices are clamped to `[0, len]`. -/
def pySliceIdx (len : Nat) (i : Int) : Nat :=
  if i < 0 then (len - (-i).toNat) else min i.toNat len

/-- Python string slice `s[a:b]` (step 1). -/
def pySlice (s : String) (a b : Int) : String :=
  let l := s.data
  let a' := pySliceIdx l.length a
  let b' := pySliceIdx l.length b
  String.mk ((l.drop a').take (b' - a'))

/-- Python truthiness of an optional string: `None` and `""` are falsy. -/
def optTruthy : Option String → Bool
  | none => false
  | some s => !(s = "")

/-- Python `str.lower()` (ASCII case mapping; the names and codes handled by
the tool are ASCII). -/
def pyLower (s : String) : String :=
  String.mk (s.data.map Char.toLower)

/-! ## MD5 (RFC 1321), embedding `hashlib.md5(...).hexdigest()`

All 32-bit machine words are `Nat` reduced mod `2^32` wherever overflow can
occur. -/

/-- UTF-8 encoding of one code point (Python `str.encode()`), as byte values. -/
def utf8Char (c : Char) : List Nat :=
  let n := c.toNat
  if n < 128 then [n]
  else if n < 2048 then [192 + n / 64, 128 + n % 64]
  else if n < 65536 then [224 + n / 4096, 128 + (n / 64) % 64, 128 + n % 64]
  else [240 + n / 262144, 128 + (n / 4096) % 64, 128 + (n / 64) % 64, 128 + n % 64]

/-- UTF-8 encoding of a string as a byte list. -/
def utf8Bytes (s : String) : List Nat :=
  (s.data.map utf8Char).flatten

/-- Truncated addition mod `2^32`. -/
def add32 (a b : Nat) : Nat := (a + b) % 4294967296

/-- 32-bit left rotation (input assumed `< 2^32`). -/
def rotl32 (x s : Nat) : Nat :=
  (x * 2 ^ s + x / 2 ^ (32 - s)) % 4294967296

/-- 32-bit bitwise complement (input assumed `< 2^32`). -/
def not32 (x : Nat) : Nat := Nat.xor x 4294967295

/-- The 64 MD5 sine-derived constants `K[i]` (RFC 1321). -/
def md5K : List Nat :=
  [3614090360, 3905402710, 606105819, 3250441966,
   4118548399, 1200080426, 2821735955, 4249261313,
   1770035416, 2336552879, 4294925233, 2304563134,
   1804603682, 4254626195, 2792965006, 1236535329,
   4129170786, 3225465664, 643717713, 3921069994,
   3593408605, 38016083, 3634488961, 3889429448,
   568446438, 3275163606, 4107603335, 1163531501,
   2850285829, 4243563512, 1735328473, 2368359562,
   4294588738, 2272392833, 1839030562, 4259657740,
   2763975236, 1272893353, 4139469664, 3200236656,
   681279174, 3936430074, 3572445317, 76029189,
   3654602809, 3873151461, 530742520, 3299628645,
   4096336452, 1126891415, 2878612391, 4237533241,
   1700485571, 2399980690, 4293915773, 2240044497,
   1873313359, 4264355552, 2734768916, 1309151649,
   4149444226, 3174756917, 718787259, 3951481745]

/-- The 64 MD5 per-round shift amounts `s[i]` (RFC 1321). -/
def md5S : List Nat :=
  [7, 12, 17, 22, 7, 12, 17, 22, 7, 12, 17, 22, 7, 12, 17, 22,
   5, 9, 14, 20, 5, 9, 14, 20, 5, 9, 14, 20, 5, 9, 14, 20,
   4, 11, 16, 23, 4, 11, 16, 23, 4, 11, 16, 23, 4, 11, 16, 23,
   6, 10, 15, 21, 6, 10, 15, 21, 6, 10, 15, 21, 6, 10, 15, 21]

/-- Round mixing function and message-word index for round `i`. -/
def md5FG (i b c d : Nat) : Nat × Nat :=
  if i < 16 then (Nat.lor (Nat.land b c) (Nat.land (not32 b) d), i % 16)
  else if i < 32 then (Nat.lor (Nat.land d b) (Nat.land (not32 d) c), (5 * i + 1) % 16)
  else if i < 48 then (Nat.xor b (Nat.xor c d), (3 * i + 5) % 16)
  else (Nat.xor c (Nat.lor b (not32 d)), (7 * i) % 16)

/-- One MD5 round applied to the state `(a, b, c, d)`. -/
def md5Round (M : List Nat) (st : Nat × Nat × Nat × Nat) (i : Nat) :
    Nat × Nat × Nat × Nat :=
  let a := st.1
  let b := st.2.1
  let c := st.2.2.1
  let d := st.2.2.2
  let fg := md5FG i b c d
  let f := (fg.1 + a + md5K.getD i 0 + M.getD fg.2 0) % 4294967296
  (d, add32 b (rotl32 f (md5S.getD i 0)), b, c)

/-- Split `x` into `n` little-endian bytes. -/
def leBytes : Nat → Nat → List Nat
  | 0, _ => []
  | n + 1, x => (x % 256) :: leBytes n (x / 256)

/-- MD5 padding: append `0x80`, zero bytes to 56 mod 64, then the 8-byte
little-endian bit length. -/
def md5Pad (msg : List Nat) : List Nat :=
  let len := msg.length
  let k := (119 - len % 64) % 64
  msg ++ [128] ++ List.replicate k 0 ++ leBytes 8 ((len * 8) % 18446744073709551616)

/-- Split a byte list into 64-byte chunks (fuel-driven). -/
def toChunks : Nat → List Nat → List (List Nat)
  | 0, _ => []
  | _, [] => []
  | fuel + 1, l => l.take 64 :: toChunks fuel (l.drop 64)

/-- Decode one 64-byte chunk into 16 little-endian 32-bit words. -/
def chunkWords (c : List Nat) : List Nat :=
  (List.range 16).map fun i =>
    c.getD (4 * i) 0 + 256 * c.getD (4 * i + 1) 0 +
      65536 * c.getD (4 * i + 2) 0 + 16777216 * c.getD (4 * i + 3) 0

/-- Process one chunk: 64 rounds, then add the result into the running state. -/
def md5Chunk (st : Nat × Nat × Nat × Nat) (c : List Nat) : Nat × Nat × Nat × Nat :=
  let M := chunkWords c
  let r := (List.range 64).foldl (md5Round M) st
  (add32 st.1 r.1, add32 st.2.1 r.2.1, add32 st.2.2.1 r.2.2.1, add32 st.2.2.2 r.2.2.2)

/-- MD5 digest of a byte list, as 16 bytes. -/
def md5Bytes (msg : List Nat) : List Nat :=
  let padded := md5Pad msg
  let st := (toChunks (padded.length + 1) padded).foldl md5Chunk
    (1732584193, 4023233417, 2562383102, 271733878)
  leBytes 4 st.1 ++ leBytes 4 st.2.1 ++ leBytes 4 st.2.2.1 ++ leBytes 4 st.2.2.2

/-- The sixteen lowercase hexadecimal digit characters, `0`-`9` then
`a`-`f`. -/
def hexDigits : List Char :=
  (List.range 16).map fun n =>
    if n < 10 then Char.ofNat (48 + n) else Char.ofNat (87 + n)

/-- Lowercase hexadecimal digit for `n % 16`. -/
def hexChar (n : Nat) : Char := hexDigits.getD (n % 16) '0'

/-- Two-character lowercase hexadecimal rendering of a byte. -/
def byteHex (b : Nat) : List Char := [hexChar (b / 16), hexChar b]

/-- `hashlib.md5(s.encode()).hexdigest()`: 32 lowercase hex characters. -/
def md5_hexdigest (s : String) : String :=
  String.mk (((md5Bytes (utf8Bytes s)).map byteHex).flatten)

/-! ## `generate_referral_hash` and `build_persona_url` (source lines 40-51) -/

/-- `name.lower().replace(" ", "-").replace("'", "")`. -/
def cleanName (name : String) : String :=
  String.mk (((name.data.map Char.toLower).map
    (fun c => if c = ' ' then '-' else c)).filter (fun c => !(c = cApos)))

/-- `generate_referral_hash`: first two characters of the cleaned name
followed by the first two hex characters of its MD5 hexdigest. -/
def generate_referral_hash (name : String) : String :=
  let clean_name := cleanName name
  let hash_suffix := String.mk ((md5_hexdigest clean_name).data.take 2)
  String.mk (clean_name.data.take 2) ++ hash_suffix

/-- The default `base_url` parameter of `build_persona_url`. -/
def defaultBaseUrl : String := "jam.audiolux.app"

/-- `build_persona_url`: `f"{base_url}?v={persona_code}&r={referral_hash}"`. -/
def build_persona_url (persona_code referral_hash base_url : String) : String :=
  base_url ++ "?v=" ++ persona_code ++ "&r=" ++ referral_hash

/-! ## JSON values and `json.loads`

Embeds Python's `json.loads` in strict mode.  JSON values parse into
`PyJson`.  Two modelling notes: (a) fractional/exponent number forms and the
`NaN`/`Infinity` extensions denote Python floats, which are outside the
embedding, so they are kept as uninterpreted lexemes (`numFloat`) - acceptance
of the grammar is faithful, only float arithmetic is not modelled; (b) a
Python dict keeps the last of duplicate keys, while `obj` keeps the member
list in parse order - the two coincide on all texts compared by the theorems
below, which never compare parses of differently-written objects. -/

inductive PyJson where
  | null
  | bool (b : Bool)
  | num (n : Int)
  | numFloat (lexeme : String)
  | str (s : String)
  | arr (elts : List PyJson)
  | obj (members : List (String × PyJson))
deriving Repr

/-- Skip JSON whitespace. -/
def skipWs (l : List Char) : List Char := l.dropWhile isWs

/-- ASCII decimal digit test. -/
def isDigit (c : Char) : Bool := '0' ≤ c && c ≤ '9'

/-- Value of a hexadecimal digit character, if it is one. -/
def hexVal (c : Char) : Option Nat :=
  if '0' ≤ c && c ≤ '9' then some (c.toNat - 48)
  else if 'a' ≤ c && c ≤ 'f' then some (c.toNat - 87)
  else if 'A' ≤ c && c ≤ 'F' then some (c.toNat - 55)
  else none

/-- Single-character JSON string escapes. -/
def escChar (c : Char) : Option Char :=
  if c = cQuote then some cQuote
  else if c = cBackslash then some cBackslash
  else if c = '/' then some '/'
  else if c = 'b' then some (Char.ofNat 8)
  else if c = 'f' then some (Char.ofNat 12)
  else if c = 'n' then some '\n'
  else if c = 'r' then some '\r'
  else if c = 't' then some '\t'
  else none

/-- Body of a JSON string, after the opening quote.  Strict mode: raw control
characters are rejected; `\uXXXX` maps through `Char.ofNat` (lone surrogate
escapes, which Python keeps as unpaired surrogates, are outside the
embedding; no text handled by the theorems contains them). -/
def parseStringBody : List Char → List Char → Option (String × List Char)
  | [], _ => none
  | c :: rest, acc =>
    if c = cQuote then some (String.mk acc.reverse, rest)
    else if c = cBackslash then
      match rest with
      | [] => none
      | e :: rest2 =>
        if e = 'u' then
          match rest2 with
          | h1 :: h2 :: h3 :: h4 :: rest3 =>
            match hexVal h1, hexVal h2, hexVal h3, hexVal h4 with
            | some a, some b, some c2, some d =>
              parseStringBody rest3 (Char.ofNat (4096 * a + 256 * b + 16 * c2 + d) :: acc)
            | _, _, _, _ => none
          | _ => none
        else
          match escChar e with
          | some ec => parseStringBody rest2 (ec :: acc)
          | none => none
    else if c.toNat < 32 then none
    else parseStringBody rest (c :: acc)

/-- Numeric value of a digit list. -/
def digitsVal (l : List Char) : Nat :=
  l.foldl (fun acc c => 10 * acc + (c.toNat - 48)) 0

/-- JSON number, following Python's `NUMBER_RE`
`(-?(?:0|[1-9]\d*))(\.\d+)?([eE][-+]?\d+)?`: the integer part is `0` or has
no leading zero, and the match is maximal but may leave trailing characters
(e.g. `01` parses as `0` leaving `1`). -/
def parseNumber (cs : List Char) : Option (PyJson × List Char) :=
  let sign : List Char × List Char :=
    match cs with
    | c :: t => if c = '-' then (['-'], t) else ([], cs)
    | [] => ([], cs)
  match sign.2 with
  | [] => none
  | c :: _ =>
    if !(isDigit c) then none
    else
      let intPart : List Char × List Char :=
        if c = '0' then (['0'], sign.2.tail)
        else (sign.2.takeWhile isDigit, sign.2.dropWhile isDigit)
      let fracPart : List Char × List Char :=
        match intPart.2 with
        | '.' :: d :: _ =>
          if isDigit d then
            ('.' :: (intPart.2.tail.takeWhile isDigit), intPart.2.tail.dropWhile isDigit)
          else ([], intPart.2)
        | _ => ([], intPart.2)
      let expPart : List Char × List Char :=
        match fracPart.2 with
        | e :: t =>
          if e = 'e' || e = 'E' then
            match t with
            | s :: t2 =>
              if s = '+' || s = '-' then
                (match t2 with
                 | d2 :: _ =>
                   if isDigit d2 then ([e, s] ++ t2.takeWhile isDigit, t2.dropWhile isDigit)
                   else ([], fracPart.2)
                 | [] => ([], fracPart.2))
              else if isDigit s then ([e] ++ t.takeWhile isDigit, t.dropWhile isDigit)
              else ([], fracPart.2)
            | [] => ([], fracPart.2)
          else ([], fracPart.2)
        | [] => ([], fracPart.2)
      if fracPart.1 = [] && expPart.1 = [] then
        let n : Int := (digitsVal intPart.1 : Int)
        some (PyJson.num (if sign.1 = [] then n else -n), intPart.2)
      else
        some (PyJson.numFloat (String.mk (sign.1 ++ intPart.1 ++ fracPart.1 ++ expPart.1)),
          expPart.2)

/-- Parser mode: a plain value, or the body of an object or array already
opened (accumulating the members parsed so far). -/
inductive PMode where
  | value
  | objBody (acc : List (String × PyJson))
  | arrBody (acc : List PyJson)

/-- Recursive-descent JSON parser (fuel-driven; every recursive call spends
one unit of fuel).  Faithful to Python's strict `json` scanner on the
fragment described at `PyJson`. -/
def parseCore : Nat → PMode → List Char → Option (PyJson × List Char)
  | 0, _, _ => none
  | fuel + 1, PMode.value, cs =>
    match cs with
    | [] => none
    | c :: rest =>
      if c = cLBrace then
        match skipWs rest with
        | d :: rest1 =>
          if d = cRBrace then some (PyJson.obj [], rest1)
          else parseCore fuel (PMode.objBody []) (d :: rest1)
        | [] => none
      else if c = '[' then
        match skipWs rest with
        | d :: rest1 =>
          if d = ']' then some (PyJson.arr [], rest1)
          else parseCore fuel (PMode.arrBody []) (d :: rest1)
        | [] => none
      else if c = cQuote then
        match parseStringBody rest [] with
        | some (s, rest1) => some (PyJson.str s, rest1)
        | none => none
      else if c = 't' then
        match rest with
        | 'r' :: 'u' :: 'e' :: rest1 => some (PyJson.bool true, rest1)
        | _ => none
      else if c = 'f' then
        match rest with
        | 'a' :: 'l' :: 's' :: 'e' :: rest1 => some (PyJson.bool false, rest1)
        | _ => none
      else if c = 'n' then
        match rest with
        | 'u' :: 'l' :: 'l' :: rest1 => some (PyJson.null, rest1)
        | _ => none
      else if c = 'N' then
        match rest with
        | 'a' :: 'N' :: rest1 => some (PyJson.numFloat "NaN", rest1)
        | _ => none
      else if c = 'I' then
        match rest with
        | 'n' :: 'f' :: 'i' :: 'n' :: 'i' :: 't' :: 'y' :: rest1 =>
          some (PyJson.numFloat "Infinity", rest1)
        | _ => none
      else if c = '-' then
        match rest with
        | 'I' :: 'n' :: 'f' :: 'i' :: 'n' :: 'i' :: 't' :: 'y' :: rest1 =>
          some (PyJson.numFloat "-Infinity", rest1)
        | _ => parseNumber cs
      else if isDigit c then parseNumber cs
      else none
  | fuel + 1, PMode.objBody acc, cs =>
    match cs with
    | [] => none
    | c :: rest =>
      if c = cQuote then
        match parseStringBody rest [] with
        | some (k, rest1) =>
          match skipWs rest1 with
          | colon :: rest2 =>
            if colon = ':' then
              match parseCore fuel PMode.value (skipWs rest2) with
              | some (v, rest3) =>
                match skipWs rest3 with
                | sep :: rest4 =>
                  if sep = ',' then
                    parseCore fuel (PMode.objBody (acc ++ [(k, v)])) (skipWs rest4)
                  else if sep = cRBrace then some (PyJson.obj (acc ++ [(k, v)]), rest4)
                  else none
                | [] => none
              | none => none
            else none
          | [] => none
        | none => none
      else none
  | fuel + 1, PMode.arrBody acc, cs =>
    match parseCore fuel PMode.value cs with
    | some (v, rest) =>
      match skipWs rest with
      | sep :: rest1 =>
        if sep = ',' then parseCore fuel (PMode.arrBody (acc ++ [v])) (skipWs rest1)
        else if sep = ']' then some (PyJson.arr (acc ++ [v]), rest1)
        else none
      | [] => none
    | none => none

/-- `json.loads`: skip surrounding whitespace, parse one value, and require
that nothing but whitespace follows (`Extra data` otherwise).  Python skips
leading whitespace, parses, then skips trailing whitespace and requires the
end of the text; stripping both ends up front is equivalent and is how the
embedding phrases it. -/
def json_loads (s : String) : Option PyJson :=
  let l := stripList s.data
  match parseCore (2 * l.length + 4) PMode.value l with
  | some (v, rest) => if skipWs rest = [] then some v else none
  | none => none

/-! ## Response interpreter (source lines 136-150) -/

/-- Errors the interpreter can raise.  `valueError` carries the message of
the `ValueError` raised by the source; `jsonDecodeError` stands for the
`json.JSONDecodeError` propagating out of the retry inside the fallback
branch - its message reports only a position (`Expecting value: line L column
C (char N)`) and never includes the document being parsed, which is why the
constructor carries no text. -/
inductive RespErr where
  | jsonDecodeError
  | valueError (msg : String)

/-- The f-string of the `ValueError` on line 150. -/
def failMsg (t : String) : String :=
  "Failed to parse Claude response as JSON:\n" ++ t

/-- Whether the message of a raised error contains the text `t`.  A
`jsonDecodeError` message is a fixed position report containing no backtick,
while it is only ever raised for a text containing the backtick-fenced
marker, so it never contains that text. -/
def errMentions (e : RespErr) (t : String) : Bool :=
  match e with
  | RespErr.jsonDecodeError => false
  | RespErr.valueError m => strContains m t

/-- Lines 139-150: direct `json.loads`, then - only when the literal marker
appears in the text - the fenced-block extraction and retry, else the
descriptive `ValueError`.  The retry is not wrapped in a handler, so its
failure propagates as a bare `JSONDecodeError`. -/
def parse_response (response_text : String) : Except RespErr PyJson :=
  match json_loads response_text with
  | some messages => Except.ok messages
  | none =>
    if strContains response_text ("```json") then
      let json_start : Nat := (strFind response_text ("```json")).toNat + 7
      let json_end : Int := strFindFrom response_text ("```") json_start
      let sliced := pyStrip (pySlice response_text (json_start : Int) json_end)
      match json_loads sliced with
      | some messages => Except.ok messages
      | none => Except.error RespErr.jsonDecodeError
    else Except.error (RespErr.valueError (failMsg response_text))

/-! ## Personas, prompt composer and `generate_outreach_messages`
(source lines 30-160) -/

/-- One persona entry: human-readable title and marketing focus line. -/
structure Persona where
  title : String
  focus : String

/-- The fixed 6-entry persona table (source lines 31-38), in insertion
order. -/
def PERSONAS : List (String × Persona) :=
  [("m", ⟨"Musician", "Browser-based music creation"⟩),
   ("d", ⟨"Deaf/HOH Person", "Music for everyone. No hearing required."⟩),
   ("e", ⟨"Educator", "Teach music visually"⟩),
   ("v", ⟨"Visual Learner", "Music for visual thinkers"⟩),
   ("p", ⟨"Producer/Beatmaker", "Professional DAW in browser"⟩),
   ("i", ⟨"Enterprise/Institution", "Scalable accessible music education"⟩)]

/-- The persona codes (the dict keys, used by `in` and by argparse
`choices`). -/
def personaKeys : List String := PERSONAS.map Prod.fst

/-- Python's `x or "Not provided"` for an optional string field: `None` and
`""` are both falsy and render as the placeholder. -/
def renderOpt : Option String → String
  | none => "Not provided"
  | some s => if s = "" then "Not provided" else s

/-- The prompt f-string of lines 92-126, verbatim (braces and the apostrophe
written as character escapes). -/
def buildPrompt (target_name platform : String) (bio recent_content : Option String)
    (persona : Persona) (persona_url : String) : String :=
  "Generate 3 personalized outreach messages for a product-led growth campaign.\n\nTARGET PROFILE:\n- Name: "
    ++ target_name
    ++ "\n- Platform: " ++ platform
    ++ "\n- Bio: " ++ renderOpt bio
    ++ "\n- Recent Content: " ++ renderOpt recent_content
    ++ "\n\nPRODUCT: Audiolux\n- Description: Browser-based visual music creation platform\n- Key Feature: No installation, accessible for Deaf/HOH users, real-time collaboration\n- Persona Focus: "
    ++ persona.title ++ " - " ++ persona.focus
    ++ "\n- URL: " ++ persona_url
    ++ "\n\nREQUIREMENTS:\n1. Reference the target\x27s specific work (if bio/content provided)\n2. Keep messages authentic and non-salesy\n3. Highlight value for their specific persona ("
    ++ persona.title
    ++ ")\n4. Include the persona URL naturally\n5. Adapt tone to the platform ("
    ++ platform
    ++ ")\n\nGenerate 3 variations:\n\n**Friendly**: Warm, conversational, personal connection\n**Professional**: Respectful, concise, value-focused\n**Brief**: Very short, attention-grabbing, direct\n\nReturn ONLY a valid JSON object with this exact structure:\n\x7b\n  \x22friendly\x22: \x22message text here\x22,\n  \x22professional\x22: \x22message text here\x22,\n  \x22brief\x22: \x22message text here\x22\n\x7d\n\nDo not include any markdown formatting, code blocks, or additional text."

/-- The result record returned by `generate_outreach_messages`
(insertion-ordered dict of lines 152-159). -/
structure OutreachResult where
  target : String
  persona : String
  platform : String
  referral_hash : String
  url : String
  messages : PyJson

/-- Errors raised by `generate_outreach_messages`: the missing-credential
`ValueError` (line 80), the invalid-persona `ValueError` (line 85), and the
response-interpreter errors. -/
inductive GenErr where
  | missingApiKey
  | invalidPersona (code : String)
  | parseFailure (e : RespErr)

/-- Outcome of one call: whether execution reached the network call
(`client.messages.create`, line 131), and the returned record or raised
error. -/
structure GenOutcome where
  networkCalled : Bool
  result : Except GenErr OutreachResult

/-- `generate_outreach_messages` (lines 54-160).  `api_key` is the optional
parameter, `env_api_key` the value of the `ANTHROPIC_API_KEY` environment
variable, `model_reply` the text of the model's reply (`message.content[0]
.text`) had the network call been reached.  Order of checks is as in the
source: credential first, then persona membership, then the call. -/
def generate_outreach_messages (target_name persona_code platform : String)
    (bio recent_content api_key env_api_key : Option String)
    (model_reply : String) : GenOutcome :=
  let key := if optTruthy api_key then api_key else env_api_key
  if !(optTruthy key) then ⟨false, Except.error GenErr.missingApiKey⟩
  else if !(personaKeys.contains persona_code) then
    ⟨false, Except.error (GenErr.invalidPersona persona_code)⟩
  else
    let persona := (PERSONAS.lookup persona_code).getD ⟨"", ""⟩
    let referral_hash := generate_referral_hash target_name
    let persona_url := build_persona_url persona_code referral_hash defaultBaseUrl
    let _prompt := buildPrompt target_name platform bio recent_content persona persona_url
    let response_text := pyStrip model_reply
    match parse_response response_text with
    | Except.ok messages =>
      ⟨true, Except.ok ⟨target_name, persona_code, platform, referral_hash, persona_url, messages⟩⟩
    | Except.error e => ⟨true, Except.error (GenErr.parseFailure e)⟩

/-! ## `save_output` (source lines 163-175) and an idealized filesystem

The filesystem is modelled as a set of created directories plus a map from
paths to file contents.  The only failure modelled is the one `os.makedirs`
raises deterministically for the empty path: when `output_file` has no
directory component, `os.path.dirname` is `""` and `os.makedirs("")` raises
`FileNotFoundError` (it ends in `mkdir("")`, errno 2, and `exist_ok=True`
does not forgive it since `isdir("")` is false).  OS-environment failures
(permissions, a directory already occupying the file path, disk errors) are
outside the model. -/

/-- Serialization of JSON string literals as `json.dump` writes them with the
default `ensure_ascii=True`: quote and backslash escaped, the five short
escapes, `\uXXXX` for other control or non-ASCII characters (surrogate pairs
above the BMP). -/
def pyQuoteChar (c : Char) : List Char :=
  let n := c.toNat
  if c = cQuote then [cBackslash, cQuote]
  else if c = cBackslash then [cBackslash, cBackslash]
  else if c = '\n' then [cBackslash, 'n']
  else if c = '\r' then [cBackslash, 'r']
  else if c = '\t' then [cBackslash, 't']
  else if n = 8 then [cBackslash, 'b']
  else if n = 12 then [cBackslash, 'f']
  else if n < 32 || n > 126 then
    if n < 65536 then
      [cBackslash, 'u', hexChar (n / 4096), hexChar (n / 256), hexChar (n / 16), hexChar n]
    else
      let hi := 55296 + (n - 65536) / 1024
      let lo := 56320 + (n - 65536) % 1024
      [cBackslash, 'u', hexChar (hi / 4096), hexChar (hi / 256), hexChar (hi / 16), hexChar hi,
       cBackslash, 'u', hexChar (lo / 4096), hexChar (lo / 256), hexChar (lo / 16), hexChar lo]
  else [c]

/-- A JSON string literal as `json.dump` writes it. -/
def pyQuote (s : String) : String :=
  String.mk (cQuote :: (s.data.map pyQuoteChar).flatten ++ [cQuote])

/-- Decimal rendering of a natural number (fuel-driven). -/
def natStrAux : Nat → Nat → List Char → List Char
  | 0, _, acc => acc
  | fuel + 1, n, acc =>
    let d := Char.ofNat (48 + n % 10)
    if n < 10 then d :: acc else natStrAux fuel (n / 10) (d :: acc)

/-- Decimal rendering of an integer, as Python writes an `int`. -/
def intStr (n : Int) : String :=
  if n < 0 then String.mk ('-' :: natStrAux (n.natAbs + 1) n.natAbs [])
  else String.mk (natStrAux (n.natAbs + 1) n.natAbs [])

/-- `n` spaces. -/
def indentStr (n : Nat) : String := String.mk (List.replicate n ' ')

mutual

/-- One value as `json.dump(..., indent=2)` writes it, at indentation
level `ind`. -/
def dumpVal : PyJson → Nat → String
  | PyJson.null, _ => "null"
  | PyJson.bool true, _ => "true"
  | PyJson.bool false, _ => "false"
  | PyJson.num n, _ => intStr n
  | PyJson.numFloat lex, _ => lex
  | PyJson.str s, _ => pyQuote s
  | PyJson.arr [], _ => "[]"
  | PyJson.arr (x :: xs), ind =>
    "[\n" ++ dumpItems (x :: xs) (ind + 2) ++ "\n" ++ indentStr ind ++ "]"
  | PyJson.obj [], _ => "\x7b\x7d"
  | PyJson.obj (kv :: kvs), ind =>
    "\x7b\n" ++ dumpMembers (kv :: kvs) (ind + 2) ++ "\n" ++ indentStr ind ++ "\x7d"

/-- Array items, one per line, comma-separated. -/
def dumpItems : List PyJson → Nat → String
  | [], _ => ""
  | [x], ind => indentStr ind ++ dumpVal x ind
  | x :: y :: rest, ind =>
    indentStr ind ++ dumpVal x ind ++ ",\n" ++ dumpItems (y :: rest) ind

/-- Object members, one per line, `": "` key separator. -/
def dumpMembers : List (String × PyJson) → Nat → String
  | [], _ => ""
  | [kv], ind => indentStr ind ++ pyQuote kv.1 ++ ": " ++ dumpVal kv.2 ind
  | kv :: kv2 :: rest, ind =>
    indentStr ind ++ pyQuote kv.1 ++ ": " ++ dumpVal kv.2 ind ++ ",\n"
      ++ dumpMembers (kv2 :: rest) ind

end

/-- `json.dump(result, f, indent=2)` output for a whole document. -/
def pyDumps (v : PyJson) : String := dumpVal v 0

/-- The result dict as a JSON value, keys in insertion order
(lines 152-159). -/
def resultToJson (r : OutreachResult) : PyJson :=
  PyJson.obj
    [("target", PyJson.str r.target),
     ("persona", PyJson.str r.persona),
     ("platform", PyJson.str r.platform),
     ("referral_hash", PyJson.str r.referral_hash),
     ("url", PyJson.str r.url),
     ("messages", r.messages)]

/-- `os.path.dirname` (posix): everything before the last slash, with
trailing slashes stripped unless the head is all slashes. -/
def lastIdxOf (c : Char) : List Char → Option Nat
  | [] => none
  | a :: t =>
    match lastIdxOf c t with
    | some k => some (k + 1)
    | none => if a = c then some 0 else none

/-- `os.path.dirname` on posix paths. -/
def posixDirname (p : String) : String :=
  let i := match lastIdxOf '/' p.data with
    | some k => k + 1
    | none => 0
  let head := p.data.take i
  if head ≠ [] && !(head.all (fun c => c = '/')) then
    String.mk (head.reverse.dropWhile (fun c => c = '/')).reverse
  else String.mk head

/-- The directories `os.makedirs(d, exist_ok=True)` guarantees to exist
afterwards: every slash-separated ancestor of `d`, and `d` itself. -/
def dirAncestors (d : String) : List String :=
  let parts := d.splitOn "/"
  ((List.range (parts.length - 1)).map
    (fun k => String.intercalate "/" (parts.take (k + 1)))) ++ [d]

/-- Idealized filesystem: created directories and file contents. -/
structure FS where
  dirs : List String
  files : String → Option String

/-- Overwrite (or create) one file. -/
def writeFile (files : String → Option String) (path content : String) :
    String → Option String :=
  fun q => if q = path then some content else files q

/-- The one modelled failure of `save_output`. -/
inductive SaveErr where
  | fileNotFoundError

/-- The auto-generated output path of lines 165-168:
`tools/outreach/{clean_name}-{persona}.json` where `clean_name` lowercases
and hyphenates the target (note: unlike the referral hash, apostrophes are
kept here). -/
def autoPath (r : OutreachResult) : String :=
  let clean_name := String.mk ((r.target.data.map Char.toLower).map
    (fun c => if c = ' ' then '-' else c))
  "tools/outreach/" ++ clean_name ++ "-" ++ r.persona ++ ".json"

/-- The path actually written: `if not output_file:` picks the auto path for
`None` and for the empty string. -/
def effectivePath (r : OutreachResult) (output_file : Option String) : String :=
  match output_file with
  | some p => if p = "" then autoPath r else p
  | none => autoPath r

/-- `save_output` (lines 163-175): choose the path, `os.makedirs` its
dirname (raising for an empty dirname), then write the pretty-printed JSON,
silently overwriting. -/
def save_output (result : OutreachResult) (output_file : Option String) (fs : FS) :
    Except SaveErr (FS × String) :=
  let path := effectivePath result output_file
  let d := posixDirname path
  if d = "" then Except.error SaveErr.fileNotFoundError
  else
    Except.ok
      (⟨fs.dirs ++ dirAncestors d,
        writeFile fs.files path (pyDumps (resultToJson result))⟩, path)

/-! ## `main` (source lines 191-245) -/

/-- Parsed command-line flags (absent flags are `none`; argparse's
`choices=list(PERSONAS.keys())` validation of `--persona` happens during
parsing and is modelled in `main_run`). -/
structure Args where
  name : Option String
  persona : Option String
  platform : Option String
  bio : Option String
  content : Option String
  config : Option String
  output : Option String
  quiet : Bool

/-- The fields of a parsed, well-formed config file (the config branch of
lines 221-227; reading a missing or key-less file aborts the process outside
the modelled paths and is out of scope, as is the spec's). -/
structure ConfigData where
  name : String
  persona : String
  platform : String
  bio : Option String
  recent_content : Option String

/-- How the process terminates: argparse usage error (status 2), caught
exception printed with the failure marker (status 1), or success
(status 0). -/
inductive ExitStatus where
  | usage
  | failure
  | success

/-- Numeric exit code of each termination.  argparse's `parser.error` (and
its `choices` validation) exits with status 2 per its documentation. -/
def exitCode : ExitStatus → Nat
  | ExitStatus.usage => 2
  | ExitStatus.failure => 1
  | ExitStatus.success => 0

/-- The `try` block of lines 235-245: generate, save, print; any exception
is caught, printed to stderr with the failure marker, and the process exits
with status 1. -/
def main_try (target_name persona_code platform : String)
    (bio recent_content output : Option String) (env_api_key : Option String)
    (model_reply : String) (fs : FS) : Bool × ExitStatus × FS :=
  let g := generate_outreach_messages target_name persona_code platform
    bio recent_content none env_api_key model_reply
  match g.result with
  | Except.error _ => (g.networkCalled, ExitStatus.failure, fs)
  | Except.ok r =>
    match save_output r output fs with
    | Except.error _ => (g.networkCalled, ExitStatus.failure, fs)
    | Except.ok (fs2, _) => (g.networkCalled, ExitStatus.success, fs2)

/-- The body of `main` after argparse accepts the flags. -/
def main_body (args : Args) (cfg : ConfigData) (env_api_key : Option String)
    (model_reply : String) (fs : FS) : Bool × ExitStatus × FS :=
  if optTruthy args.config then
    main_try cfg.name cfg.persona cfg.platform cfg.bio cfg.recent_content
      args.output env_api_key model_reply fs
  else if !(optTruthy args.name && optTruthy args.persona && optTruthy args.platform) then
    (false, ExitStatus.usage, fs)
  else
    main_try (args.name.getD "") (args.persona.getD "") (args.platform.getD "")
      args.bio args.content args.output env_api_key model_reply fs

/-- `main`: argparse `--persona` choices check, then the config/CLI selection
with its all-of-three requirement (`parser.error` on line 233 - a usage
error, not the try-block's status-1 path), then generate, save, print.
Returns whether the network call was reached, the exit status, and the
filesystem afterwards. -/
def main_run (args : Args) (cfg : ConfigData) (env_api_key : Option String)
    (model_reply : String) (fs : FS) : Bool × ExitStatus × FS :=
  match args.persona with
  | some p =>
    if !(personaKeys.contains p) then (false, ExitStatus.usage, fs)
    else main_body args cfg env_api_key model_reply fs
  | none => main_body args cfg env_api_key model_reply fs

/-! ## Auxiliary definitions used by the statements below -/

/-- The three-backtick fence, as a character list. -/
def fence3 : List Char := [cBacktick, cBacktick, cBacktick]

/-- The characters of the marker searched by the fallback branch. -/
def fence7 : List Char := [cBacktick, cBacktick, cBacktick, 'j', 's', 'o', 'n']

/-- A reply wrapping text `j` in a markdown JSON fence. -/
def wrapFence (j : String) : String := "```json\n" ++ j ++ "\n```"

/-- Member of the lowercase hexadecimal alphabet. -/
def isLowerHex (c : Char) : Bool := hexDigits.contains c

/-- CLI invocation with every flag absent. -/
def argsEmpty : Args := ⟨none, none, none, none, none, none, none, false⟩

/-- A config record (irrelevant on the no-config paths). -/
def cfgDummy : ConfigData := ⟨"", "", "", none, none⟩

/-- An empty filesystem. -/
def fsEmpty : FS := ⟨[], fun _ => none⟩

/-- A concrete result record. -/
def r0 : OutreachResult :=
  ⟨"Sean Forbes", "d", "Instagram", "se81", "jam.audiolux.app?v=d&r=se81",
    PyJson.obj [("friendly", PyJson.str "a"), ("professional", PyJson.str "b"),
      ("brief", PyJson.str "c")]⟩

/-- A JSON object text whose `friendly` value contains a backtick fence. -/
def j0 : String :=
  "\x7b\x22friendly\x22:\x22a```\x22,\x22professional\x22:\x22b\x22,\x22brief\x22:\x22c\x22\x7d"

/-- The three-key object text of the spec example. -/
def j1 : String :=
  "\x7b\x22friendly\x22:\x22a\x22,\x22professional\x22:\x22b\x22,\x22brief\x22:\x22c\x22\x7d"

/-! ## Helper lemmas -/

theorem dropWhile_head_false (p : Char → Bool) :
    ∀ (l : List Char), ∀ c ∈ (l.dropWhile p).head?, p c = false := by
  intro l
  induction l with
  | nil => intro c hc; simp at hc
  | cons a t ih =>
    intro c hc
    by_cases ha : p a = true
    · rw [List.dropWhile_cons_of_pos ha] at hc
      exact ih c hc
    · rw [List.dropWhile_cons_of_neg ha] at hc
      simp at hc
      subst hc
      simpa using ha

theorem dropWhile_self_of_head (p : Char → Bool) (l : List Char)
    (h : ∀ c ∈ l.head?, p c = false) : l.dropWhile p = l := by
  cases l with
  | nil => rfl
  | cons a t =>
    have := h a (by simp)
    simp [List.dropWhile_cons, this]

theorem stripList_eq_self (l : List Char)
    (h1 : ∀ c ∈ l.head?, isWs c = false)
    (h2 : ∀ c ∈ l.getLast?, isWs c = false) :
    stripList l = l := by
  unfold stripList
  rw [dropWhile_self_of_head isWs l h1]
  rw [dropWhile_self_of_head isWs l.reverse
    (by rw [List.head?_reverse]; exact h2)]
  exact List.reverse_reverse l

theorem stripList_head (l : List Char) :
    ∀ c ∈ (stripList l).head?, isWs c = false := by
  intro c hc
  unfold stripList at hc
  obtain ⟨t, ht⟩ := List.dropWhile_suffix (l := (l.dropWhile isWs).reverse) isWs
  set Y := ((l.dropWhile isWs).reverse).dropWhile isWs with hY
  cases hYr : Y.reverse with
  | nil => rw [hYr] at hc; simp at hc
  | cons a z =>
    rw [hYr] at hc
    simp at hc
    subst hc
    have hX : l.dropWhile isWs = Y.reverse ++ t.reverse := by
      have := congrArg List.reverse ht
      simpa [List.reverse_append] using this.symm
    have := dropWhile_head_false isWs l a
    apply this
    rw [hX, hYr]
    simp

theorem stripList_getLast (l : List Char) :
    ∀ c ∈ (stripList l).getLast?, isWs c = false := by
  intro c hc
  unfold stripList at hc
  rw [List.getLast?_reverse] at hc
  exact dropWhile_head_false isWs _ c hc

theorem stripList_idem (l : List Char) :
    stripList (stripList l) = stripList l :=
  stripList_eq_self _ (stripList_head l) (stripList_getLast l)

theorem stripList_cons_ws (c : Char) (l : List Char) (h : isWs c = true) :
    stripList (c :: l) = stripList l := by
  unfold stripList
  rw [List.dropWhile_cons_of_pos h]

theorem rightStrip_append_ws (m : List Char) (c : Char) (h : isWs c = true) :
    ((m ++ [c]).reverse.dropWhile isWs).reverse = (m.reverse.dropWhile isWs).reverse := by
  rw [List.reverse_append]
  simp [List.dropWhile_cons_of_pos h]

theorem stripList_append_ws (l : List Char) (c : Char) (h : isWs c = true) :
    stripList (l ++ [c]) = stripList l := by
  unfold stripList
  rw [List.dropWhile_append]
  by_cases he : (l.dropWhile isWs).isEmpty = true
  · have he' : List.dropWhile isWs l = [] := List.isEmpty_iff.mp he
    simp [he, he', List.dropWhile_cons_of_pos h, h]
  · simp only [he, if_false]
    exact rightStrip_append_ws _ _ h

theorem json_loads_congr_strip (l l' : List Char) (h : stripList l = stripList l') :
    json_loads (String.mk l) = json_loads (String.mk l') := by
  show (match parseCore (2 * (stripList l).length + 4) PMode.value (stripList l) with
    | some (v, rest) => if skipWs rest = [] then some v else none
    | none => none) =
    (match parseCore (2 * (stripList l').length + 4) PMode.value (stripList l') with
    | some (v, rest) => if skipWs rest = [] then some v else none
    | none => none)
  rw [h]

theorem isPrefixOf_append_self (sub post : List Char) :
    sub.isPrefixOf (sub ++ post) = true := by
  induction sub with
  | nil => simp [List.isPrefixOf]
  | cons a t ih => simp [List.isPrefixOf, ih]

theorem isPrefixOf_self (sub : List Char) : sub.isPrefixOf sub = true := by
  have h := isPrefixOf_append_self sub []
  rw [List.append_nil] at h
  exact h

theorem firstOcc_of_isPrefixOf (sub l : List Char) (h : sub.isPrefixOf l = true) :
    firstOcc sub l = some 0 := by
  cases l <;> simp [firstOcc, h]

theorem firstOcc_append_isSome (sub pre rest : List Char)
    (h : sub.isPrefixOf rest = true) :
    (firstOcc sub (pre ++ rest)).isSome = true := by
  induction pre with
  | nil => rw [List.nil_append, firstOcc_of_isPrefixOf sub rest h]; rfl
  | cons a t ih =>
    rw [List.cons_append]
    by_cases hp : sub.isPrefixOf (a :: (t ++ rest)) = true
    · simp [firstOcc, hp]
    · simp only [firstOcc, hp, if_false, Option.isSome_map', Bool.false_eq_true]
      exact ih

theorem firstOcc_none_parts (sub : List Char) (c : Char) (t : List Char)
    (h : firstOcc sub (c :: t) = none) :
    sub.isPrefixOf (c :: t) = false ∧ firstOcc sub t = none := by
  cases hb : sub.isPrefixOf (c :: t) with
  | true =>
    rw [firstOcc_of_isPrefixOf sub (c :: t) hb] at h
    cases h
  | false =>
    refine ⟨rfl, ?_⟩
    have he : firstOcc sub (c :: t) = (firstOcc sub t).map (· + 1) := by
      simp [firstOcc, hb]
    rw [he] at h
    exact Option.map_eq_none'.mp h

theorem firstOcc_fence3_tail :
    ∀ (l : List Char), firstOcc fence3 l = none →
      firstOcc fence3 (l ++ '\n' :: fence3) = some (l.length + 1) := by
  intro l
  induction l with
  | nil => intro _; decide
  | cons c t ih =>
    intro h
    obtain ⟨hp, h'⟩ := firstOcc_none_parts fence3 c t h
    have hnb : (cBacktick == '\n') = false := by decide
    have hnp : fence3.isPrefixOf (c :: (t ++ '\n' :: fence3)) = false := by
      match t with
      | [] =>
        show fence3.isPrefixOf (c :: '\n' :: fence3) = false
        simp only [fence3, List.isPrefixOf, hnb, Bool.false_and, Bool.and_false]
      | [x] =>
        show fence3.isPrefixOf (c :: x :: '\n' :: fence3) = false
        simp only [fence3, List.isPrefixOf, hnb, Bool.false_and, Bool.and_false]
      | x :: y :: t2 =>
        show fence3.isPrefixOf (c :: x :: y :: (t2 ++ '\n' :: fence3)) = false
        simp only [fence3, List.isPrefixOf, Bool.and_true] at hp ⊢
        exact hp
    have he : firstOcc fence3 (c :: (t ++ '\n' :: fence3)) =
        (firstOcc fence3 (t ++ '\n' :: fence3)).map (· + 1) := by
      simp [firstOcc, hnp]
    rw [List.cons_append, he, ih h']
    simp

theorem parseCore_backtick (fuel : Nat) (rest : List Char) :
    parseCore fuel PMode.value (cBacktick :: rest) = none := by
  cases fuel with
  | zero => rfl
  | succ n =>
    have g1 : (cBacktick = cLBrace) = False := eq_false (by decide)
    have g2 : (cBacktick = '[') = False := eq_false (by decide)
    have g3 : (cBacktick = cQuote) = False := eq_false (by decide)
    have g4 : (cBacktick = 't') = False := eq_false (by decide)
    have g5 : (cBacktick = 'f') = False := eq_false (by decide)
    have g6 : (cBacktick = 'n') = False := eq_false (by decide)
    have g7 : (cBacktick = 'N') = False := eq_false (by decide)
    have g8 : (cBacktick = 'I') = False := eq_false (by decide)
    have g9 : (cBacktick = '-') = False := eq_false (by decide)
    have g10 : (isDigit cBacktick) = false := by decide
    simp [parseCore, g1, g2, g3, g4, g5, g6, g7, g8, g9, g10]

theorem generate_invalid_persona_outcome (tn pc pf : String)
    (bio rc ak ek : Option String) (reply : String)
    (h : personaKeys.contains pc = false) :
    generate_outreach_messages tn pc pf bio rc ak ek reply =
      (if optTruthy (if optTruthy ak = true then ak else ek) = true then
        ⟨false, Except.error (GenErr.invalidPersona pc)⟩
      else ⟨false, Except.error GenErr.missingApiKey⟩) := by
  unfold generate_outreach_messages
  have h' : ¬(pc ∈ personaKeys) := by simpa using h
  by_cases hk : optTruthy (if optTruthy ak = true then ak else ek) = true <;>
    simp [hk, h, h']

/-- **C7.** `build_persona_url("d", "se12")` with the default base host is
exactly `jam.audiolux.app?v=d&r=se12`, and in general the result is the base
host followed by `?v={persona_code}&r={referral_hash}`. -/
theorem build_persona_url_spec :
    build_persona_url "d" "se12" defaultBaseUrl = "jam.audiolux.app?v=d&r=se12" ∧
    ∀ (p r b : String), build_persona_url p r b = b ++ "?v=" ++ p ++ "&r=" ++ r :=
  ⟨by decide, fun _ _ _ => rfl⟩

/-- **C10.** A bio or recent-content field supplied as the empty string
renders in the composed prompt as the literal `Not provided` placeholder,
exactly as if the field had been omitted: the substitution (`x or "Not
provided"`) tests falsiness, not absence. -/
theorem empty_bio_renders_not_provided :
    (∀ (tn pf : String) (rc : Option String) (p : Persona) (url : String),
      buildPrompt tn pf (some "") rc p url = buildPrompt tn pf none rc p url) ∧
    (∀ (tn pf : String) (bio : Option String) (p : Persona) (url : String),
      buildPrompt tn pf bio (some "") p url = buildPrompt tn pf bio none p url) ∧
    renderOpt (some "") = "Not provided" ∧ renderOpt none = "Not provided" :=
  ⟨fun _ _ _ _ _ => rfl, fun _ _ _ _ _ => rfl, rfl, rfl⟩

/-- **C3.** For every persona code outside the fixed 6-entry persona set and
all values of the other inputs, `generate_outreach_messages` fails with an
error raised before any network call is attempted. -/
theorem invalid_persona_fails_before_network (tn pc pf : String)
    (bio rc ak ek : Option String) (reply : String)
    (h : personaKeys.contains pc = false) :
    (generate_outreach_messages tn pc pf bio rc ak ek reply).networkCalled = false ∧
    ∃ e, (generate_outreach_messages tn pc pf bio rc ak ek reply).result =
      Except.error e := by
  rw [generate_invalid_persona_outcome tn pc pf bio rc ak ek reply h]
  by_cases hk : optTruthy (if optTruthy ak = true then ak else ek) = true <;>
    simp [hk]

/-- Witness for C3 at the concrete persona code `"z"`. -/
theorem invalid_persona_fails_before_network_witness :
    personaKeys.contains "z" = false ∧
    ((generate_outreach_messages "Sean Forbes" "z" "Instagram" none none
        (some "sk-key") none "reply").networkCalled = false ∧
      ∃ e, (generate_outreach_messages "Sean Forbes" "z" "Instagram" none none
        (some "sk-key") none "reply").result = Except.error e) :=
  ⟨by decide,
    invalid_persona_fails_before_network "Sean Forbes" "z" "Instagram" none none
      (some "sk-key") none "reply" (by decide)⟩

/-- **C8.** With the `api_key` argument absent and the environment variable
unset, `generate_outreach_messages` raises the missing-credential error even
for an invalid persona code - the credential check precedes persona
validation - and an invalid-persona error can only be observed when a truthy
credential is present. -/
theorem missing_key_precedes_invalid_persona (tn pc pf : String)
    (bio rc : Option String) (reply : String)
    (h : personaKeys.contains pc = false) :
    (generate_outreach_messages tn pc pf bio rc none none reply).result =
      Except.error GenErr.missingApiKey ∧
    (generate_outreach_messages tn pc pf bio rc none none reply).networkCalled = false ∧
    ∀ (ak ek : Option String) (c : String),
      (generate_outreach_messages tn pc pf bio rc ak ek reply).result =
        Except.error (GenErr.invalidPersona c) →
      optTruthy ak = true ∨ optTruthy ek = true := by
  refine ⟨?_, ?_, ?_⟩
  · simp [generate_outreach_messages, optTruthy]
  · simp [generate_outreach_messages, optTruthy]
  · intro ak ek c hres
    rw [generate_invalid_persona_outcome tn pc pf bio rc ak ek reply h] at hres
    by_cases hk : optTruthy (if optTruthy ak = true then ak else ek) = true
    · by_cases hak : optTruthy ak = true
      · exact Or.inl hak
      · rw [if_neg hak] at hk
        exact Or.inr hk
    · rw [if_neg hk] at hres
      simp at hres

/-- Witness for C8 at the concrete invalid persona code `"z"`. -/
theorem missing_key_precedes_invalid_persona_witness :
    personaKeys.contains "z" = false ∧
    (generate_outreach_messages "Sean Forbes" "z" "Instagram" none none none none
      "reply").result = Except.error GenErr.missingApiKey :=
  ⟨by decide,
    (missing_key_precedes_invalid_persona "Sean Forbes" "z" "Instagram" none none
      "reply" (by decide)).1⟩

/-- **C2 (amended).** With `--config` absent and at least one of `--name`,
`--persona`, `--platform` missing, `main` attempts no network call and
terminates through `parser.error` with a usage error, whose exit status is 2
(argparse's documented usage-error status), not 1. -/
theorem main_missing_args_usage (args : Args) (cfg : ConfigData)
    (ek : Option String) (reply : String) (fs : FS)
    (hcfg : args.config = none)
    (h : args.name = none ∨ args.persona = none ∨ args.platform = none) :
    main_run args cfg ek reply fs = (false, ExitStatus.usage, fs) ∧
    exitCode ExitStatus.usage = 2 := by
  refine ⟨?_, rfl⟩
  cases hp : args.persona with
  | none =>
    simp [main_run, main_body, hp, hcfg, optTruthy]
  | some p =>
    rcases h with hn | hpn | hpl
    · by_cases hc : personaKeys.contains p = true
      · simp [main_run, main_body, hp, hc, hcfg, hn, optTruthy]
      · have hc2 : ¬(p ∈ personaKeys) := by simpa using hc
        simp [main_run, main_body, hp, hc]
        intro hmem
        exact absurd hmem hc2
    · rw [hp] at hpn
      cases hpn
    · by_cases hc : personaKeys.contains p = true
      · simp [main_run, main_body, hp, hc, hcfg, hpl, optTruthy]
      · have hc2 : ¬(p ∈ personaKeys) := by simpa using hc
        simp [main_run, main_body, hp, hc]
        intro hmem
        exact absurd hmem hc2

/-- Witness for C2 (amended) at an invocation with every flag absent. -/
theorem main_missing_args_usage_witness :
    argsEmpty.config = none ∧
    main_run argsEmpty cfgDummy none "" fsEmpty = (false, ExitStatus.usage, fsEmpty) :=
  ⟨rfl, (main_missing_args_usage argsEmpty cfgDummy none "" fsEmpty rfl (Or.inl rfl)).1⟩

/-- **C2 counterexample.** At the all-flags-absent invocation the process
attempts no network call and reports a usage error, but its exit status is 2,
not 1 as claimed. -/
theorem main_missing_args_exit_code_counterexample :
    main_run argsEmpty cfgDummy none "" fsEmpty = (false, ExitStatus.usage, fsEmpty) ∧
    exitCode (main_run argsEmpty cfgDummy none "" fsEmpty).2.1 = 2 ∧
    exitCode (main_run argsEmpty cfgDummy none "" fsEmpty).2.1 ≠ 1 :=
  ⟨rfl, rfl, by decide⟩

/-- **C6 (amended).** For every result record and output path whose directory
component is nonempty (which includes every auto-derived path, rooted at
`tools/outreach`), `save_output` creates the missing parent directories and
writes the pretty-printed JSON, silently overwriting any existing file; a
path with an empty directory component instead fails in `os.makedirs("")`. -/
theorem save_output_spec (r : OutreachResult) (out : Option String) (fs : FS)
    (h : posixDirname (effectivePath r out) ≠ "") :
    save_output r out fs =
      Except.ok (⟨fs.dirs ++ dirAncestors (posixDirname (effectivePath r out)),
        writeFile fs.files (effectivePath r out) (pyDumps (resultToJson r))⟩,
        effectivePath r out) ∧
    writeFile fs.files (effectivePath r out) (pyDumps (resultToJson r))
        (effectivePath r out) = some (pyDumps (resultToJson r)) ∧
    (∀ d ∈ dirAncestors (posixDirname (effectivePath r out)),
      d ∈ fs.dirs ++ dirAncestors (posixDirname (effectivePath r out))) ∧
    posixDirname (effectivePath r out) ∈
      dirAncestors (posixDirname (effectivePath r out)) := by
  refine ⟨?_, ?_, ?_, ?_⟩
  · simp [save_output, h]
  · simp [writeFile]
  · intro d hd
    exact List.mem_append_right _ hd
  · unfold dirAncestors
    exact List.mem_append_right _ (List.mem_singleton.mpr rfl)

/-- Witness for C6 (amended) at the auto-derived path. -/
theorem save_output_spec_witness :
    posixDirname (effectivePath r0 none) ≠ "" ∧
    save_output r0 none fsEmpty =
      Except.ok (⟨fsEmpty.dirs ++ dirAncestors (posixDirname (effectivePath r0 none)),
        writeFile fsEmpty.files (effectivePath r0 none) (pyDumps (resultToJson r0))⟩,
        effectivePath r0 none) :=
  ⟨by decide, (save_output_spec r0 none fsEmpty (by decide)).1⟩

/-- **C6 counterexample.** An explicit output path with no directory
component makes `save_output` fail: `os.path.dirname("out.json")` is empty
and `os.makedirs("")` raises `FileNotFoundError`, so the write is not
failure-free for every choice of output path. -/
theorem save_output_bare_filename_counterexample :
    posixDirname "out.json" = "" ∧
    save_output r0 (some ("out.json")) fsEmpty =
      Except.error SaveErr.fileNotFoundError :=
  ⟨rfl, rfl⟩

theorem leBytes_length (n : Nat) : ∀ (x : Nat), (leBytes n x).length = n := by
  induction n with
  | zero => intro x; rfl
  | succ k ih => intro x; simp [leBytes, ih]

theorem md5Bytes_length (msg : List Nat) : (md5Bytes msg).length = 16 := by
  unfold md5Bytes
  simp [List.length_append, leBytes_length]

theorem hexJoin_length (bl : List Nat) :
    ((bl.map byteHex).flatten).length = 2 * bl.length := by
  induction bl with
  | nil => rfl
  | cons b t ih =>
    simp [byteHex] at ih ⊢
    omega

theorem md5_hexdigest_length (s : String) : (md5_hexdigest s).data.length = 32 := by
  show (((md5Bytes (utf8Bytes s)).map byteHex).flatten).length = 32
  rw [hexJoin_length, md5Bytes_length]

theorem hexChar_isLowerHex (n : Nat) : isLowerHex (hexChar n) = true := by
  have h16 : n % 16 < 16 := Nat.mod_lt _ (by norm_num)
  unfold isLowerHex hexChar
  set m := n % 16 with hm
  interval_cases m <;> decide

theorem md5_hexdigest_chars (s : String) :
    ∀ c ∈ (md5_hexdigest s).data, isLowerHex c = true := by
  intro c hc
  have hc2 : c ∈ ((md5Bytes (utf8Bytes s)).map byteHex).flatten := hc
  rw [List.mem_flatten] at hc2
  obtain ⟨a, ha, hca⟩ := hc2
  rw [List.mem_map] at ha
  obtain ⟨b, _, hab⟩ := ha
  rw [← hab] at hca
  simp [byteHex] at hca
  rcases hca with h | h <;> rw [h] <;> exact hexChar_isLowerHex _

/-- **C4.** For every name, `generate_referral_hash` returns the first two
characters of the normalized name followed by the first two characters of
its MD5 hexdigest (lowercase hexadecimal characters); the output has exactly
4 characters when the normalized name has at least two, and correspondingly
fewer (normalized length + 2) when it is shorter. -/
theorem generate_referral_hash_spec (name : String) :
    generate_referral_hash name =
      String.mk ((cleanName name).data.take 2) ++
        String.mk ((md5_hexdigest (cleanName name)).data.take 2) ∧
    (generate_referral_hash name).length = min 2 (cleanName name).length + 2 ∧
    (2 ≤ (cleanName name).length → (generate_referral_hash name).length = 4) ∧
    ((cleanName name).length < 2 →
      (generate_referral_hash name).length = (cleanName name).length + 2) ∧
    (∀ c ∈ ((md5_hexdigest (cleanName name)).data.take 2), isLowerHex c = true) := by
  have hlen : (generate_referral_hash name).length =
      min 2 (cleanName name).length + 2 := by
    show ((cleanName name).data.take 2 ++
      (md5_hexdigest (cleanName name)).data.take 2).length =
      min 2 (cleanName name).length + 2
    rw [List.length_append, List.length_take, List.length_take,
      md5_hexdigest_length]
    rfl
  refine ⟨rfl, hlen, ?_, ?_, ?_⟩
  · intro h2
    rw [hlen]
    omega
  · intro h2
    rw [hlen]
    omega
  · intro c hc
    exact md5_hexdigest_chars _ c (List.take_subset _ _ hc)

/-- Witness for C4 at the concrete name `"Sean Forbes"`. -/
theorem generate_referral_hash_spec_witness :
    2 ≤ (cleanName "Sean Forbes").length ∧
    (generate_referral_hash "Sean Forbes").length = 4 :=
  ⟨by decide, (generate_referral_hash_spec "Sean Forbes").2.2.1 (by decide)⟩

set_option maxRecDepth 10000 in
/-- RFC 1321 test vector, anchoring the MD5 embedding. -/
theorem md5_rfc_vector : md5_hexdigest "abc" = "900150983cd24fb0d6963f7d28e17f72" := by
  decide

set_option maxRecDepth 10000 in
/-- Concrete referral hash, matching `hashlib.md5("sean-forbes")`. -/
theorem referral_concrete : generate_referral_hash "Sean Forbes" = "se81" := by
  decide

/-- **C1 (amended).** For every reply text on which the direct JSON parse
fails and which does not contain the marker `` ```json ``, the interpreter
raises the descriptive `ValueError` whose message contains the offending
reply text.  (When the marker is present and the extracted block also fails
to parse, a bare JSON decode error propagates instead, and its message does
not contain the reply text - see the counterexample.) -/
theorem interpreter_no_marker_descriptive_error (t : String)
    (h1 : json_loads t = none)
    (h2 : strContains t ("```json") = false) :
    parse_response t = Except.error (RespErr.valueError (failMsg t)) ∧
    errMentions (RespErr.valueError (failMsg t)) t = true := by
  constructor
  · simp [parse_response, h1, h2]
  · show strContains (failMsg t) t = true
    show (firstOcc t.data ("Failed to parse Claude response as JSON:\n".data
      ++ t.data)).isSome = true
    exact firstOcc_append_isSome t.data _ t.data (isPrefixOf_self t.data)

/-- Witness for C1 (amended) at the reply text `"garbage"`. -/
theorem interpreter_no_marker_descriptive_error_witness :
    json_loads "garbage" = none ∧
    strContains "garbage" ("```json") = false ∧
    parse_response "garbage" = Except.error (RespErr.valueError (failMsg "garbage")) :=
  ⟨rfl, rfl, (interpreter_no_marker_descriptive_error "garbage" rfl rfl).1⟩

/-- **C1 counterexample.** For the reply text ` ```json\nnot json\n``` ` the
direct parse fails and the fenced-block fallback parse also fails, but what
is raised is the bare JSON decode error of the unguarded retry, whose
message does not contain the offending reply text. -/
theorem interpreter_marker_failure_counterexample :
    json_loads ("```json\nnot json\n```") = none ∧
    parse_response ("```json\nnot json\n```") = Except.error RespErr.jsonDecodeError ∧
    errMentions RespErr.jsonDecodeError ("```json\nnot json\n```") = false :=
  ⟨rfl, rfl, rfl⟩

/-- **C9.** The fenced-block fallback is attempted only on the exact marker
`` ```json ``: a text failing the direct parse that contains a plain
`` ``` `` fence but not the marker raises the descriptive format error with
no extraction attempt. -/
theorem plain_fence_no_extraction (t : String)
    (h1 : json_loads t = none)
    (_h2 : strContains t ("```") = true)
    (h3 : strContains t ("```json") = false) :
    parse_response t = Except.error (RespErr.valueError (failMsg t)) := by
  simp [parse_response, h1, h3]

/-- Witness for C9 at the reply text ` ```\nnope\n``` `. -/
theorem plain_fence_no_extraction_witness :
    json_loads ("```\nnope\n```") = none ∧
    strContains ("```\nnope\n```") ("```") = true ∧
    strContains ("```\nnope\n```") ("```json") = false ∧
    parse_response ("```\nnope\n```") =
      Except.error (RespErr.valueError (failMsg ("```\nnope\n```"))) :=
  ⟨rfl, rfl, rfl, plain_fence_no_extraction _ rfl rfl rfl⟩

theorem wrapFence_data (j : String) :
    (wrapFence j).data = fence7 ++ ('\n' :: (j.data ++ ('\n' :: fence3))) := by
  have h1 : "```json\n".data = fence7 ++ ['\n'] := by decide
  have h2 : "\n```".data = '\n' :: fence3 := by decide
  calc (wrapFence j).data
      = ("```json\n".data ++ j.data) ++ "\n```".data := by
        rw [wrapFence, String.data_append, String.data_append]
    _ = ((fence7 ++ ['\n']) ++ j.data) ++ ('\n' :: fence3) := by rw [h1, h2]
    _ = fence7 ++ ('\n' :: (j.data ++ ('\n' :: fence3))) := by
        simp [List.append_assoc]

theorem wrapFence_strip (j : String) :
    stripList (wrapFence j).data = (wrapFence j).data := by
  apply stripList_eq_self
  · intro c hc
    rw [wrapFence_data] at hc
    simp [fence7] at hc
    subst hc
    decide
  · intro c hc
    have hdata2 : (wrapFence j).data =
        (fence7 ++ ('\n' :: (j.data ++ ['\n', cBacktick, cBacktick]))) ++ [cBacktick] := by
      rw [wrapFence_data]
      simp [fence3]
    rw [hdata2, List.getLast?_concat] at hc
    simp at hc
    subst hc
    decide

theorem wrapFence_drop7 (j : String) :
    (wrapFence j).data.drop 7 = '\n' :: (j.data ++ ('\n' :: fence3)) := by
  rw [wrapFence_data]
  rw [show (7 : Nat) = fence7.length from rfl]
  exact List.drop_left fence7 _

theorem wrapFence_json_loads_none (j : String) :
    json_loads (wrapFence j) = none := by
  show (match parseCore (2 * (stripList (wrapFence j).data).length + 4) PMode.value
      (stripList (wrapFence j).data) with
    | some (v, rest) => if skipWs rest = [] then some v else none
    | none => none) = none
  rw [wrapFence_strip, wrapFence_data]
  simp only [fence7, List.cons_append, parseCore_backtick]

theorem wrapFence_contains_marker (j : String) :
    strContains (wrapFence j) ("```json") = true := by
  show (firstOcc ("```json").data (wrapFence j).data).isSome = true
  rw [show ("```json").data = fence7 from by decide, wrapFence_data,
    firstOcc_of_isPrefixOf _ _ (isPrefixOf_append_self fence7 _)]
  rfl

theorem wrapFence_find_marker (j : String) :
    strFind (wrapFence j) ("```json") = 0 := by
  unfold strFind
  rw [show ("```json").data = fence7 from by decide, wrapFence_data,
    firstOcc_of_isPrefixOf _ _ (isPrefixOf_append_self fence7 _)]
  rfl

theorem wrapFence_occ_close (j : String) (hnf : strContains j ("```") = false) :
    firstOcc fence3 ((wrapFence j).data.drop 7) = some (j.data.length + 2) := by
  rw [wrapFence_drop7]
  have hj3 : firstOcc fence3 j.data = none := by
    cases ho : firstOcc fence3 j.data with
    | none => rfl
    | some k =>
      have : (firstOcc ("```").data j.data).isSome = false := hnf
      rw [show ("```").data = fence3 from by decide, ho] at this
      cases this
  have hpre : fence3.isPrefixOf ('\n' :: (j.data ++ ('\n' :: fence3))) = false := by
    simp [fence3, List.isPrefixOf, show (cBacktick == '\n') = false from by decide]
  have hstep : firstOcc fence3 ('\n' :: (j.data ++ ('\n' :: fence3))) =
      (firstOcc fence3 (j.data ++ ('\n' :: fence3))).map (· + 1) := by
    simp [firstOcc, hpre]
  rw [hstep, firstOcc_fence3_tail j.data hj3]
  rfl

theorem wrapFence_find_close (j : String) (hnf : strContains j ("```") = false) :
    strFindFrom (wrapFence j) ("```") 7 = ((j.data.length + 9 : Nat) : Int) := by
  unfold strFindFrom
  rw [show ("```").data = fence3 from by decide, wrapFence_occ_close j hnf]
  show ((7 + (j.data.length + 2) : Nat) : Int) = ((j.data.length + 9 : Nat) : Int)
  congr 1
  omega

theorem wrapFence_length (j : String) :
    (wrapFence j).data.length = j.data.length + 12 := by
  rw [wrapFence_data]
  simp [fence7, fence3]

theorem wrapFence_slice (j : String) :
    pySlice (wrapFence j) ((7 : Nat) : Int) ((j.data.length + 9 : Nat) : Int) =
      String.mk ('\n' :: (j.data ++ ['\n'])) := by
  have hnn : ∀ (n : Nat), ¬(((n : Nat) : Int) < 0) :=
    fun n => Int.not_lt.mpr (Int.natCast_nonneg n)
  have h1 : pySliceIdx ((wrapFence j).data.length) ((7 : Nat) : Int) = 7 := by
    unfold pySliceIdx
    rw [if_neg (hnn 7), Int.toNat_natCast, wrapFence_length]
    exact Nat.min_eq_left (by omega)
  have h2 : pySliceIdx ((wrapFence j).data.length) ((j.data.length + 9 : Nat) : Int) =
      j.data.length + 9 := by
    unfold pySliceIdx
    rw [if_neg (hnn _), Int.toNat_natCast, wrapFence_length]
    exact Nat.min_eq_left (by omega)
  show String.mk (((wrapFence j).data.drop
      (pySliceIdx ((wrapFence j).data.length) ((7 : Nat) : Int))).take
      ((pySliceIdx ((wrapFence j).data.length) ((j.data.length + 9 : Nat) : Int)) -
        (pySliceIdx ((wrapFence j).data.length) ((7 : Nat) : Int)))) =
    String.mk ('\n' :: (j.data ++ ['\n']))
  rw [h1, h2, wrapFence_drop7]
  have h3 : j.data.length + 9 - 7 = (j.data.length + 1) + 1 := by omega
  rw [h3, List.take_succ_cons, List.take_append_eq_append_take,
    List.take_of_length_le (by omega : j.data.length ≤ j.data.length + 1)]
  have h4 : j.data.length + 1 - j.data.length = 1 := by omega
  rw [h4]
  rfl

theorem parse_response_fallback (t : String) (h1 : json_loads t = none)
    (h2 : strContains t ("```json") = true) :
    parse_response t = (match json_loads (pyStrip (pySlice t
        ((((strFind t ("```json")).toNat + 7 : Nat)) : Int)
        (strFindFrom t ("```") ((strFind t ("```json")).toNat + 7)))) with
      | some m => Except.ok m
      | none => Except.error RespErr.jsonDecodeError) := by
  simp [parse_response, h1, h2]

/-- **C5 (amended).** For every JSON text `j` that does not contain the
fence substring `` ``` ``, the interpreter applied to
`"```json\n" ++ j ++ "\n```"` fails the direct parse and succeeds via the
fallback path, returning the same value as parsing `j` directly.  (When `j`
itself contains `` ``` ``, the fence-end search stops inside `j` and the
retry parses a truncated prefix - see the counterexample.) -/
theorem fenced_reply_parses_like_direct (j : String) (v : PyJson)
    (hv : json_loads j = some v)
    (hnf : strContains j ("```") = false) :
    json_loads (wrapFence j) = none ∧
    parse_response (wrapFence j) = Except.ok v := by
  refine ⟨wrapFence_json_loads_none j, ?_⟩
  have harg : ((strFind (wrapFence j) ("```json")).toNat + 7 : Nat) = 7 := by
    rw [wrapFence_find_marker j]
    rfl
  have hjs : json_loads (pyStrip (pySlice (wrapFence j)
      ((((strFind (wrapFence j) ("```json")).toNat + 7 : Nat)) : Int)
      (strFindFrom (wrapFence j) ("```")
        ((strFind (wrapFence j) ("```json")).toNat + 7)))) = some v := by
    rw [harg, wrapFence_find_close j hnf, wrapFence_slice j]
    show json_loads (String.mk (stripList ('\n' :: (j.data ++ ['\n'])))) = some v
    rw [stripList_cons_ws '\n' _ (by decide),
      stripList_append_ws j.data '\n' (by decide),
      json_loads_congr_strip (stripList j.data) j.data (stripList_idem j.data)]
    exact hv
  rw [parse_response_fallback (wrapFence j) (wrapFence_json_loads_none j)
    (wrapFence_contains_marker j), hjs]

set_option maxRecDepth 10000 in
/-- Witness for C5 (amended) at the three-key object text of the spec
example. -/
theorem fenced_reply_parses_like_direct_witness :
    json_loads j1 = some (PyJson.obj [("friendly", PyJson.str "a"),
      ("professional", PyJson.str "b"), ("brief", PyJson.str "c")]) ∧
    strContains j1 ("```") = false ∧
    parse_response (wrapFence j1) = Except.ok (PyJson.obj [("friendly", PyJson.str "a"),
      ("professional", PyJson.str "b"), ("brief", PyJson.str "c")]) :=
  ⟨rfl, rfl, (fenced_reply_parses_like_direct j1 _ rfl rfl).2⟩

set_option maxRecDepth 10000 in
/-- **C5 counterexample.** For the JSON object text `j0`, whose `friendly`
value contains `` ``` ``, direct parsing succeeds, but the interpreter on the
wrapped text raises a JSON decode error instead of returning that mapping:
the fence-end search truncates the payload. -/
theorem fenced_backtick_payload_counterexample :
    json_loads j0 = some (PyJson.obj [("friendly", PyJson.str "a```"),
      ("professional", PyJson.str "b"), ("brief", PyJson.str "c")]) ∧
    parse_response (wrapFence j0) = Except.error RespErr.jsonDecodeError :=
  ⟨rfl, rfl⟩
